import Mathlib

/-!
Verification of the DNS zone synchronization engine in `sync_dns_zones.py`.

The development shallowly embeds the record data model, the provenance
marker codec (`_get_sync_marker`, `_is_synced_from_view`), the record
matcher (`_extract_record_key` and the target lookup dict), the
one-directional reconciliation pass (`DNSRecordSync.sync_records_one_way`),
the record-listing client (`InfobloxAPIClient.get_a_records`), and the
bidirectional orchestrator (`DNSRecordSync.run_sync`).

Remote effects (the POST/PATCH calls issued through the API client) are
modelled by an oracle `env : Op → Bool` saying whether a given remote call
succeeds, and the server-side state change of the successful calls is
modelled by `applyOps`.
-/

/-- Shape of the `rdata` entry of a record dict as fetched from the API:
the key may be absent, may hold a non-dict value, or may hold a dict in
which the `address` entry may itself be absent. -/
inductive RdataField where
  | absent : RdataField
  | nonDict : RdataField
  | fields : Option String → RdataField
deriving Repr, DecidableEq

/-- A DNS A record as consumed by the sync engine: the fields of the
fetched record dict that `sync_records_one_way`, `_extract_record_key`
and `get_a_records` read (`id`, `name_in_zone`, `rdata`, `comment`,
`created_at`, `view_name`), with a missing string field modelled as `""`
(the `.get(..., '')` default). -/
structure Rec where
  id : String
  name_in_zone : String
  rdata : RdataField
  comment : String
  created_at : String
  view_name : String
deriving Repr, DecidableEq

/-- Boolean test that the first character list starts the second
(character lists of Python strings). -/
def charsStart : List Char → List Char → Bool
  | [], _ => true
  | _ :: _, [] => false
  | a :: ps, b :: l => a = b && charsStart ps l

/-- Boolean substring containment on character lists: Python's
`pat in s` operator, haystack second. -/
def charsContains (pat : List Char) : List Char → Bool
  | [] => pat.isEmpty
  | b :: l => charsStart pat (b :: l) || charsContains pat l

/-- Python's `pat in s` substring test on strings. -/
def strContains (s pat : String) : Bool := charsContains pat.data s.data

/-- Embeds `DNSRecordSync._get_sync_marker` (lines 258-262): the comment
written by the engine, `"Synced from {source_view} on {sync_time}"` plus
`", created: {created_timestamp}"` when the created timestamp is truthy.
The wall-clock `sync_time` is passed in as a parameter. -/
def getSyncMarker (source_view sync_time created_timestamp : String) : String :=
  "Synced from " ++ source_view ++ " on " ++ sync_time ++
    (if created_timestamp ≠ "" then ", created: " ++ created_timestamp else "")

/-- Embeds `DNSRecordSync._is_synced_from_view` (lines 264-268): false on
a falsy comment, otherwise the substring test
`f"Synced from {view_name}" in comment`. -/
def isSyncedFromView (comment view_name : String) : Bool :=
  if comment = "" then false
  else strContains comment ("Synced from " ++ view_name)

/-- Embeds `DNSRecordSync._extract_record_key` (lines 270-277): the
`name_in_zone` field, with an empty (falsy) name replaced by the zone
apex sentinel `"@"`. -/
def extractRecordKey (r : Rec) : String :=
  if r.name_in_zone = "" then "@" else r.name_in_zone

/-- The IP address the pass extracts from a record (lines 307-310 and
321-325): `record['rdata'].get('address', '')` guarded by
`'rdata' in record and isinstance(record['rdata'], dict)`, with `""` in
every fallback case. -/
def recordAddress (r : Rec) : String :=
  match r.rdata with
  | RdataField.fields (some a) => a
  | _ => ""

/-- Association-list model of a Python dict assignment
`target_lookup[key] = record`: overwrite the existing binding if the key
is present, else append. -/
def assocInsert (m : List (String × Rec)) (k : String) (v : Rec) : List (String × Rec) :=
  match m with
  | [] => [(k, v)]
  | (k', v') :: rest => if k' = k then (k, v) :: rest else (k', v') :: assocInsert rest k v

/-- Dict lookup on the association-list model. -/
def assocFind (m : List (String × Rec)) (k : String) : Option Rec :=
  match m with
  | [] => none
  | (k', v) :: rest => if k' = k then some v else assocFind rest k

/-- Embeds the target-lookup loop of `sync_records_one_way`
(lines 297-300): a dict from record key to record, later records
overwriting earlier ones with the same key. -/
def buildTargetLookup (records : List Rec) : List (String × Rec) :=
  records.foldl (fun m r => assocInsert m (extractRecordKey r) r) []

/-- The last record of a list with the given key, if any: the value the
target-lookup dict finally holds for that key. -/
def lastFind (l : List Rec) (k : String) : Option Rec :=
  match l with
  | [] => none
  | r :: rest =>
      match lastFind rest k with
      | some t => some t
      | none => if extractRecordKey r = k then some r else none

/-- A remote mutation issued through the API client: `create_a_record`
on the client for the given view (key, ip, zone, comment), or
`update_a_record` (record id, ip, comment). The view field records
through which client the call is made. -/
inductive Op where
  | create : String → String → String → String → String → Op
  | update : String → String → String → String → Op
deriving Repr, DecidableEq

/-- The view name (client) an operation is issued through. -/
def opView : Op → String
  | Op.create view _ _ _ _ => view
  | Op.update view _ _ _ => view

/-- Per-record outcome of the pass, mirroring the distinct log lines of
`sync_records_one_way`: skipped-as-loop (line 316), updated (336),
failed update (339), conflict warning (342), already in sync (345),
created (351), failed create (354). -/
inductive Outcome where
  | skippedLoop : String → Outcome
  | updated : String → Outcome
  | updateFailed : String → Outcome
  | conflict : String → String → String → Outcome
  | inSync : String → Outcome
  | created : String → Outcome
  | createFailed : String → Outcome
deriving Repr, DecidableEq

/-- The body of the per-source-record loop of `sync_records_one_way`
(lines 305-354), against a fixed target lookup `m`: returns the
contribution to `synced_count`, the remote calls attempted, and the
outcome logged. `env` tells whether an attempted remote call succeeds. -/
def processRecord (env : Op → Bool) (source_view target_view zone sync_time : String)
    (m : List (String × Rec)) (s : Rec) : Nat × List Op × List Outcome :=
  let source_key := extractRecordKey s
  let source_ip := recordAddress s
  let source_comment := s.comment
  let source_created := s.created_at
  if isSyncedFromView source_comment target_view then
    (0, [], [Outcome.skippedLoop source_key])
  else
    match assocFind m source_key with
    | some target_record =>
        let target_ip := recordAddress target_record
        let target_comment := target_record.comment
        if source_ip ≠ target_ip then
          if isSyncedFromView target_comment source_view then
            let new_comment := getSyncMarker source_view sync_time source_created
            let record_id := target_record.id
            if record_id = "" then
              (0, [], [Outcome.updateFailed source_key])
            else
              let op := Op.update target_view record_id source_ip new_comment
              if env op then (1, [op], [Outcome.updated source_key])
              else (0, [op], [Outcome.updateFailed source_key])
          else
            (0, [], [Outcome.conflict source_key source_ip target_ip])
        else
          (0, [], [Outcome.inSync source_key])
    | none =>
        let new_comment := getSyncMarker source_view sync_time source_created
        let op := Op.create target_view source_key source_ip zone new_comment
        if env op then (1, [op], [Outcome.created source_key])
        else (0, [op], [Outcome.createFailed source_key])

/-- The source-record loop of `sync_records_one_way`: fold of
`processRecord` over the source records, accumulating the synced count,
the attempted remote calls, and the logged outcomes in order. -/
def syncList (env : Op → Bool) (source_view target_view zone sync_time : String)
    (m : List (String × Rec)) : List Rec → Nat × List Op × List Outcome
  | [] => (0, [], [])
  | s :: rest =>
      let step := processRecord env source_view target_view zone sync_time m s
      let acc := syncList env source_view target_view zone sync_time m rest
      (step.1 + acc.1, step.2.1 ++ acc.2.1, step.2.2 ++ acc.2.2)

/-- Embeds `DNSRecordSync.sync_records_one_way` (lines 279-356) given the
two fetched record lists, instrumented with the attempted remote calls
and per-record outcomes alongside the returned count. -/
def syncOneWayFull (env : Op → Bool) (source_view target_view zone sync_time : String)
    (source_records target_records : List Rec) : Nat × List Op × List Outcome :=
  syncList env source_view target_view zone sync_time
    (buildTargetLookup target_records) source_records

/-- The value `sync_records_one_way` actually returns: the single
`synced_count` integer (line 356). -/
def sync_records_one_way (env : Op → Bool) (source_view target_view zone sync_time : String)
    (source_records target_records : List Rec) : Nat :=
  (syncOneWayFull env source_view target_view zone sync_time source_records target_records).1

/-- The record held by the target view after a successful
`create_a_record` call: the written key, address and comment, with the
server-assigned id given by `newId`. -/
def createdRec (newId : String → String) (view key ip comment : String) : Rec :=
  { id := newId key, name_in_zone := key, rdata := RdataField.fields (some ip),
    comment := comment, created_at := "", view_name := view }

/-- Server-side effect of one attempted remote call on the target view's
record list: a failed call (per `env`) changes nothing; a successful
create appends a record carrying the written address and comment, with
the server-assigned id given by `newId`; a successful update rewrites
the address and comment of the records bearing the patched id. -/
def applyOp (env : Op → Bool) (newId : String → String) (tgt : List Rec) (op : Op) : List Rec :=
  if env op then
    match op with
    | Op.create view key ip _ comment =>
        tgt ++ [createdRec newId view key ip comment]
    | Op.update _ record_id ip comment =>
        tgt.map fun r =>
          if r.id = record_id then
            { r with rdata := RdataField.fields (some ip), comment := comment }
          else r
  else tgt

/-- Server-side effect of a sequence of attempted remote calls. -/
def applyOps (env : Op → Bool) (newId : String → String) (tgt : List Rec) (ops : List Op) : List Rec :=
  ops.foldl (applyOp env newId) tgt

/-- Embeds `InfobloxAPIClient.get_a_records` (lines 146-184) given the
server's reply to the type-A/zone-filtered query: `none` models a failed
HTTP request (`_make_request` returned `None`), in which case the method
returns `[]` (line 184); a reply is filtered client-side to the records
of the client's view (lines 171, 176). -/
def get_a_records (view_name : String) (response : Option (List Rec)) : List Rec :=
  match response with
  | some rows => rows.filter (fun r => r.view_name = view_name)
  | none => []

/-- A directional pass as invoked with raw fetch responses: both record
sets go through `get_a_records`, and the pass body runs on the resulting
lists. The `source_records is None` guard of lines 289-291 can never
fire because `get_a_records` always returns a list. -/
def syncPassFromResponses (env : Op → Bool) (source_view target_view zone sync_time : String)
    (sourceResponse targetResponse : Option (List Rec)) : Nat × List Op × List Outcome :=
  syncOneWayFull env source_view target_view zone sync_time
    (get_a_records source_view sourceResponse) (get_a_records target_view targetResponse)

/-- Control-flow skeleton of `DNSRecordSync.run_sync` (lines 358-389):
the A-to-B pass and then the B-to-A pass run sequentially inside one
`try` block, each modelled as an `Except` value since an exception
raised by a pass propagates; the `except` clause re-raises, so an error
in the first pass aborts before the second pass is attempted, and a
completed run yields both counts. -/
def run_sync_seq (pass1 pass2 : Except String Nat) : Except String (Nat × Nat) :=
  match pass1 with
  | Except.error e => Except.error e
  | Except.ok c1 =>
      match pass2 with
      | Except.error e => Except.error e
      | Except.ok c2 => Except.ok (c1, c2)

/-- Whether an outcome is a successful create or a successful update:
exactly the branches of `sync_records_one_way` that execute
`synced_count += 1`. -/
def isSyncedOutcome : Outcome → Bool
  | Outcome.updated _ => true
  | Outcome.created _ => true
  | _ => false

theorem extractRecordKey_ne_empty (r : Rec) : extractRecordKey r ≠ "" := by
  unfold extractRecordKey
  by_cases h : r.name_in_zone = "" <;> simp [h]

theorem assocFind_assocInsert (m : List (String × Rec)) (k k' : String) (v : Rec) :
    assocFind (assocInsert m k v) k' = if k = k' then some v else assocFind m k' := by
  induction m with
  | nil => simp [assocInsert, assocFind]
  | cons p rest ih =>
      obtain ⟨k0, v0⟩ := p
      by_cases h : k0 = k
      · subst h
        by_cases h' : k0 = k' <;> simp [assocInsert, assocFind, h']
      · by_cases h' : k0 = k'
        · have hkk : ¬ k = k' := fun he => h (h'.trans he.symm)
          have hkk' : ¬ k' = k := fun he => hkk he.symm
          simp [assocInsert, assocFind, h, h', hkk, hkk']
        · simp [assocInsert, assocFind, h, h', ih]

theorem lastFind_nil (k : String) : lastFind [] k = none := rfl

theorem lastFind_cons (r : Rec) (rest : List Rec) (k : String) :
    lastFind (r :: rest) k =
      match lastFind rest k with
      | some t => some t
      | none => if extractRecordKey r = k then some r else none := rfl

theorem assocFind_buildLoop (l : List Rec) (m : List (String × Rec)) (k : String) :
    assocFind (l.foldl (fun m r => assocInsert m (extractRecordKey r) r) m) k =
      match lastFind l k with
      | some t => some t
      | none => assocFind m k := by
  induction l generalizing m with
  | nil => simp [lastFind]
  | cons r rest ih =>
      rw [List.foldl_cons, ih, lastFind_cons]
      rcases h : lastFind rest k with _ | t
      · by_cases hk : extractRecordKey r = k <;>
          simp [assocFind_assocInsert, hk]
      · rfl

theorem assocFind_buildTargetLookup (l : List Rec) (k : String) :
    assocFind (buildTargetLookup l) k = lastFind l k := by
  have h := assocFind_buildLoop l [] k
  unfold buildTargetLookup
  rw [h]
  rcases lastFind l k with _ | t <;> simp [assocFind]

theorem lastFind_mem {l : List Rec} {k : String} {u : Rec} (h : lastFind l k = some u) :
    u ∈ l ∧ extractRecordKey u = k := by
  induction l with
  | nil => simp [lastFind_nil] at h
  | cons r rest ih =>
      rw [lastFind_cons] at h
      rcases h' : lastFind rest k with _ | t
      · rw [h'] at h
        by_cases hk : extractRecordKey r = k
        · simp [hk] at h
          subst h
          exact ⟨List.mem_cons_self r rest, hk⟩
        · simp [hk] at h
      · rw [h'] at h
        simp at h
        subst h
        rcases ih h' with ⟨hm, hk⟩
        exact ⟨List.mem_cons_of_mem r hm, hk⟩

theorem lastFind_append (l l₂ : List Rec) (k : String) :
    lastFind (l ++ l₂) k =
      match lastFind l₂ k with
      | some t => some t
      | none => lastFind l k := by
  induction l with
  | nil =>
      rw [List.nil_append]
      rcases h : lastFind l₂ k with _ | t <;> rfl
  | cons r rest ih =>
      rw [List.cons_append, lastFind_cons, ih, lastFind_cons]
      rcases h : lastFind l₂ k with _ | t <;> rfl

theorem lastFind_map (f : Rec → Rec) (hf : ∀ r, extractRecordKey (f r) = extractRecordKey r)
    (l : List Rec) (k : String) :
    lastFind (l.map f) k = (lastFind l k).map f := by
  induction l with
  | nil => simp [lastFind_nil]
  | cons r rest ih =>
      rw [List.map_cons, lastFind_cons, ih, lastFind_cons]
      rcases h : lastFind rest k with _ | t
      · by_cases hk : extractRecordKey r = k <;> simp [hf, hk]
      · simp

theorem processRecord_skip {s : Rec} {target_view : String}
    (env : Op → Bool) (source_view zone sync_time : String) (m : List (String × Rec))
    (h1 : isSyncedFromView s.comment target_view = true) :
    processRecord env source_view target_view zone sync_time m s =
      (0, [], [Outcome.skippedLoop (extractRecordKey s)]) := by
  simp [processRecord, h1]

theorem processRecord_create {s : Rec} {target_view : String} {m : List (String × Rec)}
    (env : Op → Bool) (source_view zone sync_time : String)
    (h1 : isSyncedFromView s.comment target_view = false)
    (h2 : assocFind m (extractRecordKey s) = none) :
    processRecord env source_view target_view zone sync_time m s =
      (if env (Op.create target_view (extractRecordKey s) (recordAddress s) zone
            (getSyncMarker source_view sync_time s.created_at)) then
        (1, [Op.create target_view (extractRecordKey s) (recordAddress s) zone
              (getSyncMarker source_view sync_time s.created_at)],
         [Outcome.created (extractRecordKey s)])
      else
        (0, [Op.create target_view (extractRecordKey s) (recordAddress s) zone
              (getSyncMarker source_view sync_time s.created_at)],
         [Outcome.createFailed (extractRecordKey s)])) := by
  simp [processRecord, h1, h2]

theorem processRecord_inSync {s u : Rec} {target_view : String} {m : List (String × Rec)}
    (env : Op → Bool) (source_view zone sync_time : String)
    (h1 : isSyncedFromView s.comment target_view = false)
    (h2 : assocFind m (extractRecordKey s) = some u)
    (h3 : recordAddress s = recordAddress u) :
    processRecord env source_view target_view zone sync_time m s =
      (0, [], [Outcome.inSync (extractRecordKey s)]) := by
  simp [processRecord, h1, h2, h3]

theorem processRecord_conflict {s u : Rec} {target_view source_view : String} {m : List (String × Rec)}
    (env : Op → Bool) (zone sync_time : String)
    (h1 : isSyncedFromView s.comment target_view = false)
    (h2 : assocFind m (extractRecordKey s) = some u)
    (h3 : recordAddress s ≠ recordAddress u)
    (h4 : isSyncedFromView u.comment source_view = false) :
    processRecord env source_view target_view zone sync_time m s =
      (0, [], [Outcome.conflict (extractRecordKey s) (recordAddress s) (recordAddress u)]) := by
  simp [processRecord, h1, h2, h3, h4]

theorem processRecord_updateNoId {s u : Rec} {target_view source_view : String} {m : List (String × Rec)}
    (env : Op → Bool) (zone sync_time : String)
    (h1 : isSyncedFromView s.comment target_view = false)
    (h2 : assocFind m (extractRecordKey s) = some u)
    (h3 : recordAddress s ≠ recordAddress u)
    (h4 : isSyncedFromView u.comment source_view = true)
    (h6 : u.id = "") :
    processRecord env source_view target_view zone sync_time m s =
      (0, [], [Outcome.updateFailed (extractRecordKey s)]) := by
  simp [processRecord, h1, h2, h3, h4, h6]

theorem processRecord_update {s u : Rec} {target_view source_view : String} {m : List (String × Rec)}
    (env : Op → Bool) (zone sync_time : String)
    (h1 : isSyncedFromView s.comment target_view = false)
    (h2 : assocFind m (extractRecordKey s) = some u)
    (h3 : recordAddress s ≠ recordAddress u)
    (h4 : isSyncedFromView u.comment source_view = true)
    (h6 : u.id ≠ "") :
    processRecord env source_view target_view zone sync_time m s =
      (if env (Op.update target_view u.id (recordAddress s)
            (getSyncMarker source_view sync_time s.created_at)) then
        (1, [Op.update target_view u.id (recordAddress s)
              (getSyncMarker source_view sync_time s.created_at)],
         [Outcome.updated (extractRecordKey s)])
      else
        (0, [Op.update target_view u.id (recordAddress s)
              (getSyncMarker source_view sync_time s.created_at)],
         [Outcome.updateFailed (extractRecordKey s)])) := by
  simp [processRecord, h1, h2, h3, h4, h6]

theorem charsStart_self_append (l m : List Char) : charsStart l (l ++ m) = true := by
  induction l with
  | nil => rfl
  | cons a rest ih => simp [charsStart, ih]

theorem charsContains_of_start {pat l : List Char} (h : charsStart pat l = true) :
    charsContains pat l = true := by
  cases l with
  | nil =>
      cases pat with
      | nil => rfl
      | cons a ps => simp [charsStart] at h
  | cons b rest => simp [charsContains, h]

theorem strContains_append_left (a b : String) : strContains (a ++ b) a = true := by
  unfold strContains
  rw [String.data_append]
  exact charsContains_of_start (charsStart_self_append a.data b.data)

theorem getSyncMarker_decomp (source_view sync_time created_timestamp : String) :
    getSyncMarker source_view sync_time created_timestamp =
      ("Synced from " ++ source_view) ++
        (" on " ++ sync_time ++
          (if created_timestamp ≠ "" then ", created: " ++ created_timestamp else "")) := by
  unfold getSyncMarker
  apply String.ext
  simp [String.data_append]

theorem getSyncMarker_ne_empty (source_view sync_time created_timestamp : String) :
    getSyncMarker source_view sync_time created_timestamp ≠ "" := by
  rw [getSyncMarker_decomp]
  intro h
  have hd := congrArg String.data h
  rw [String.data_append, String.data_append] at hd
  have hS : ("Synced from ").data = 'S' :: "ynced from ".data := rfl
  rw [hS] at hd
  simp at hd

theorem isSyncedFromView_getSyncMarker (source_view sync_time created_timestamp : String) :
    isSyncedFromView (getSyncMarker source_view sync_time created_timestamp) source_view = true := by
  unfold isSyncedFromView
  rw [if_neg (getSyncMarker_ne_empty source_view sync_time created_timestamp)]
  rw [getSyncMarker_decomp]
  exact strContains_append_left _ _

theorem syncList_nil (env : Op → Bool) (sv tv z t : String) (m : List (String × Rec)) :
    syncList env sv tv z t m [] = (0, [], []) := rfl

theorem syncList_cons (env : Op → Bool) (sv tv z t : String) (m : List (String × Rec))
    (s : Rec) (rest : List Rec) :
    syncList env sv tv z t m (s :: rest) =
      ((processRecord env sv tv z t m s).1 + (syncList env sv tv z t m rest).1,
       (processRecord env sv tv z t m s).2.1 ++ (syncList env sv tv z t m rest).2.1,
       (processRecord env sv tv z t m s).2.2 ++ (syncList env sv tv z t m rest).2.2) := rfl

theorem syncList_append (env : Op → Bool) (sv tv z t : String) (m : List (String × Rec))
    (l₁ l₂ : List Rec) :
    syncList env sv tv z t m (l₁ ++ l₂) =
      ((syncList env sv tv z t m l₁).1 + (syncList env sv tv z t m l₂).1,
       (syncList env sv tv z t m l₁).2.1 ++ (syncList env sv tv z t m l₂).2.1,
       (syncList env sv tv z t m l₁).2.2 ++ (syncList env sv tv z t m l₂).2.2) := by
  induction l₁ with
  | nil => simp [syncList_nil]
  | cons s rest ih =>
      rw [List.cons_append, syncList_cons, syncList_cons, ih]
      simp [Nat.add_assoc]

theorem processRecord_count_eq (env : Op → Bool) (sv tv z t : String)
    (m : List (String × Rec)) (s : Rec) :
    (processRecord env sv tv z t m s).1 =
      (processRecord env sv tv z t m s).2.2.countP isSyncedOutcome := by
  rcases Bool.eq_false_or_eq_true (isSyncedFromView s.comment tv) with h1 | h1
  · rw [processRecord_skip env sv z t m h1]
    simp [List.countP_cons, isSyncedOutcome]
  · rcases h2 : assocFind m (extractRecordKey s) with _ | u
    · rw [processRecord_create env sv z t h1 h2]
      by_cases h5 : env (Op.create tv (extractRecordKey s) (recordAddress s) z
          (getSyncMarker sv t s.created_at)) <;>
        simp [h5, List.countP_cons, isSyncedOutcome]
    · by_cases h3 : recordAddress s = recordAddress u
      · rw [processRecord_inSync env sv z t h1 h2 h3]
        simp [List.countP_cons, isSyncedOutcome]
      · rcases Bool.eq_false_or_eq_true (isSyncedFromView u.comment sv) with h4 | h4
        · by_cases h6 : u.id = ""
          · rw [processRecord_updateNoId env z t h1 h2 h3 h4 h6]
            simp [List.countP_cons, isSyncedOutcome]
          · rw [processRecord_update env z t h1 h2 h3 h4 h6]
            by_cases h5 : env (Op.update tv u.id (recordAddress s)
                (getSyncMarker sv t s.created_at)) <;>
              simp [h5, List.countP_cons, isSyncedOutcome]
        · rw [processRecord_conflict env z t h1 h2 h3 h4]
          simp [List.countP_cons, isSyncedOutcome]

theorem processRecord_trace_length (env : Op → Bool) (sv tv z t : String)
    (m : List (String × Rec)) (s : Rec) :
    (processRecord env sv tv z t m s).2.2.length = 1 := by
  rcases Bool.eq_false_or_eq_true (isSyncedFromView s.comment tv) with h1 | h1
  · rw [processRecord_skip env sv z t m h1]; rfl
  · rcases h2 : assocFind m (extractRecordKey s) with _ | u
    · rw [processRecord_create env sv z t h1 h2]
      by_cases h5 : env (Op.create tv (extractRecordKey s) (recordAddress s) z
          (getSyncMarker sv t s.created_at)) <;> simp [h5]
    · by_cases h3 : recordAddress s = recordAddress u
      · rw [processRecord_inSync env sv z t h1 h2 h3]; rfl
      · rcases Bool.eq_false_or_eq_true (isSyncedFromView u.comment sv) with h4 | h4
        · by_cases h6 : u.id = ""
          · rw [processRecord_updateNoId env z t h1 h2 h3 h4 h6]; rfl
          · rw [processRecord_update env z t h1 h2 h3 h4 h6]
            by_cases h5 : env (Op.update tv u.id (recordAddress s)
                (getSyncMarker sv t s.created_at)) <;> simp [h5]
        · rw [processRecord_conflict env z t h1 h2 h3 h4]; rfl

theorem syncList_count_eq (env : Op → Bool) (sv tv z t : String) (m : List (String × Rec))
    (src : List Rec) :
    (syncList env sv tv z t m src).1 =
      (syncList env sv tv z t m src).2.2.countP isSyncedOutcome := by
  induction src with
  | nil => rfl
  | cons s rest ih =>
      rw [syncList_cons]
      simp only [List.countP_append]
      rw [← ih, ← processRecord_count_eq]

theorem syncList_trace_length (env : Op → Bool) (sv tv z t : String) (m : List (String × Rec))
    (src : List Rec) :
    (syncList env sv tv z t m src).2.2.length = src.length := by
  induction src with
  | nil => rfl
  | cons s rest ih =>
      rw [syncList_cons]
      simp [List.length_append, processRecord_trace_length, ih]
      omega

theorem syncList_zero (env : Op → Bool) (sv tv z t : String) (m : List (String × Rec))
    (src : List Rec)
    (h : ∀ s ∈ src, (processRecord env sv tv z t m s).1 = 0 ∧
          (processRecord env sv tv z t m s).2.1 = []) :
    (syncList env sv tv z t m src).1 = 0 ∧ (syncList env sv tv z t m src).2.1 = [] := by
  induction src with
  | nil => exact ⟨rfl, rfl⟩
  | cons s rest ih =>
      rcases h s (List.mem_cons_self s rest) with ⟨hc, ho⟩
      rcases ih (fun s' hs' => h s' (List.mem_cons_of_mem s hs')) with ⟨hc', ho'⟩
      rw [syncList_cons, hc, hc', ho, ho']
      exact ⟨rfl, rfl⟩

theorem processRecord_ops_shape (env : Op → Bool) (sv tv z t : String)
    (m : List (String × Rec)) (s : Rec) :
    ∀ op ∈ (processRecord env sv tv z t m s).2.1,
      (assocFind m (extractRecordKey s) = none ∧
        op = Op.create tv (extractRecordKey s) (recordAddress s) z
              (getSyncMarker sv t s.created_at)) ∨
      (∃ u, assocFind m (extractRecordKey s) = some u ∧ u.id ≠ "" ∧
        op = Op.update tv u.id (recordAddress s) (getSyncMarker sv t s.created_at)) := by
  intro op hop
  rcases Bool.eq_false_or_eq_true (isSyncedFromView s.comment tv) with h1 | h1
  · rw [processRecord_skip env sv z t m h1] at hop
    simp at hop
  · rcases h2 : assocFind m (extractRecordKey s) with _ | u
    · rw [processRecord_create env sv z t h1 h2] at hop
      by_cases h5 : env (Op.create tv (extractRecordKey s) (recordAddress s) z
          (getSyncMarker sv t s.created_at)) <;>
        simp [h5] at hop <;> exact Or.inl ⟨rfl, hop⟩
    · by_cases h3 : recordAddress s = recordAddress u
      · rw [processRecord_inSync env sv z t h1 h2 h3] at hop
        simp at hop
      · rcases Bool.eq_false_or_eq_true (isSyncedFromView u.comment sv) with h4 | h4
        · by_cases h6 : u.id = ""
          · rw [processRecord_updateNoId env z t h1 h2 h3 h4 h6] at hop
            simp at hop
          · rw [processRecord_update env z t h1 h2 h3 h4 h6] at hop
            by_cases h5 : env (Op.update tv u.id (recordAddress s)
                (getSyncMarker sv t s.created_at)) <;>
              simp [h5] at hop <;> exact Or.inr ⟨u, rfl, h6, hop⟩
        · rw [processRecord_conflict env z t h1 h2 h3 h4] at hop
          simp at hop

theorem syncList_ops_shape (env : Op → Bool) (sv tv z t : String)
    (m : List (String × Rec)) (src : List Rec) :
    ∀ op ∈ (syncList env sv tv z t m src).2.1,
      ∃ s ∈ src,
        (assocFind m (extractRecordKey s) = none ∧
          op = Op.create tv (extractRecordKey s) (recordAddress s) z
                (getSyncMarker sv t s.created_at)) ∨
        (∃ u, assocFind m (extractRecordKey s) = some u ∧ u.id ≠ "" ∧
          op = Op.update tv u.id (recordAddress s) (getSyncMarker sv t s.created_at)) := by
  induction src with
  | nil => intro op hop; simp [syncList_nil] at hop
  | cons s rest ih =>
      intro op hop
      rw [syncList_cons] at hop
      rcases List.mem_append.mp hop with h | h
      · exact ⟨s, List.mem_cons_self s rest, processRecord_ops_shape env sv tv z t m s op h⟩
      · rcases ih op h with ⟨s', hs', hshape⟩
        exact ⟨s', List.mem_cons_of_mem s hs', hshape⟩

theorem extractRecordKey_update (r : Rec) (rd : RdataField) (cm : String) :
    extractRecordKey { r with rdata := rd, comment := cm } = extractRecordKey r := rfl

theorem applyOp_create_eq (env : Op → Bool) (newId : String → String) (l : List Rec)
    (vw ke ip zo cm : String) :
    applyOp env newId l (Op.create vw ke ip zo cm) =
      if env (Op.create vw ke ip zo cm) then l ++ [createdRec newId vw ke ip cm] else l := by
  unfold applyOp
  by_cases h : env (Op.create vw ke ip zo cm) <;> simp [h]

theorem applyOp_update_eq (env : Op → Bool) (newId : String → String) (l : List Rec)
    (vw rid ip cm : String) :
    applyOp env newId l (Op.update vw rid ip cm) =
      if env (Op.update vw rid ip cm) then
        l.map (fun r => if r.id = rid then
          { r with rdata := RdataField.fields (some ip), comment := cm } else r)
      else l := by
  unfold applyOp
  by_cases h : env (Op.update vw rid ip cm) <;> simp [h]

theorem extractRecordKey_createdRec (newId : String → String) (vw ke ip cm : String)
    (hke : ke ≠ "") :
    extractRecordKey (createdRec newId vw ke ip cm) = ke := by
  simp [extractRecordKey, createdRec, hke]

theorem lastFind_applyOp_frame (env : Op → Bool) (newId : String → String)
    (l : List Rec) (op : Op) (k : String)
    (hc : ∀ vw ke ip zo cm, op = Op.create vw ke ip zo cm → ke ≠ k ∧ ke ≠ "")
    (hu : ∀ vw rid ip cm, op = Op.update vw rid ip cm →
            ∀ u', lastFind l k = some u' → rid ≠ u'.id) :
    lastFind (applyOp env newId l op) k = lastFind l k := by
  cases op with
  | create vw ke ip zo cm =>
      rw [applyOp_create_eq]
      by_cases h : env (Op.create vw ke ip zo cm)
      · rw [if_pos h, lastFind_append]
        rcases hc vw ke ip zo cm rfl with ⟨hk, hne⟩
        have h0 : lastFind [createdRec newId vw ke ip cm] k = none := by
          rw [lastFind_cons, lastFind_nil]
          simp [extractRecordKey_createdRec newId vw ke ip cm hne, hk]
        rw [h0]
      · rw [if_neg h]
  | update vw rid ip cm =>
      rw [applyOp_update_eq]
      by_cases h : env (Op.update vw rid ip cm)
      · rw [if_pos h]
        rw [lastFind_map _ (fun r => by by_cases hr : r.id = rid <;> simp [hr, extractRecordKey])]
        rcases hf : lastFind l k with _ | u'
        · rfl
        · have hne : rid ≠ u'.id := hu vw rid ip cm rfl u' hf
          have : ¬ (u'.id = rid) := fun he => hne he.symm
          simp [this]
      · rw [if_neg h]

theorem lastFind_applyOps_frame (env : Op → Bool) (newId : String → String) (ops : List Op) :
    ∀ (l : List Rec) (k : String),
      (∀ op ∈ ops, ∀ vw ke ip zo cm, op = Op.create vw ke ip zo cm → ke ≠ k ∧ ke ≠ "") →
      (∀ op ∈ ops, ∀ vw rid ip cm, op = Op.update vw rid ip cm →
          ∀ u', lastFind l k = some u' → rid ≠ u'.id) →
      lastFind (applyOps env newId l ops) k = lastFind l k := by
  induction ops with
  | nil => intro l k _ _; rfl
  | cons op rest ih =>
      intro l k hc hu
      have h1 : lastFind (applyOp env newId l op) k = lastFind l k :=
        lastFind_applyOp_frame env newId l op k
          (hc op (List.mem_cons_self op rest))
          (hu op (List.mem_cons_self op rest))
      have h2 := ih (applyOp env newId l op) k
        (fun op' ho' => hc op' (List.mem_cons_of_mem op ho'))
        (fun op' ho' vw rid ip cm he u' hf =>
          hu op' (List.mem_cons_of_mem op ho') vw rid ip cm he u' (h1.symm.trans hf))
      calc lastFind (applyOps env newId l (op :: rest)) k
          = lastFind (applyOps env newId (applyOp env newId l op) rest) k := rfl
        _ = lastFind (applyOp env newId l op) k := h2
        _ = lastFind l k := h1

theorem applyOp_preserves (env : Op → Bool) (newId : String → String)
    (l : List Rec) (op : Op) {r : Rec} (h : r ∈ l) :
    ∃ r', r' ∈ applyOp env newId l op ∧ r'.id = r.id ∧
      extractRecordKey r' = extractRecordKey r := by
  cases op with
  | create vw ke ip zo cm =>
      rw [applyOp_create_eq]
      by_cases he : env (Op.create vw ke ip zo cm)
      · exact ⟨r, by simp [he, h], rfl, rfl⟩
      · exact ⟨r, by simp [he, h], rfl, rfl⟩
  | update vw rid ip cm =>
      rw [applyOp_update_eq]
      by_cases he : env (Op.update vw rid ip cm)
      · by_cases hr : r.id = rid
        · refine ⟨{ r with rdata := RdataField.fields (some ip), comment := cm }, ?_, rfl, rfl⟩
          simp [he]
          exact ⟨r, h, by simp [hr]⟩
        · refine ⟨r, ?_, rfl, rfl⟩
          simp [he]
          exact ⟨r, h, by simp [hr]⟩
      · exact ⟨r, by simp [he, h], rfl, rfl⟩

theorem applyOps_preserves (env : Op → Bool) (newId : String → String) (ops : List Op) :
    ∀ (l : List Rec) (r : Rec), r ∈ l →
      ∃ r', r' ∈ applyOps env newId l ops ∧ r'.id = r.id ∧
        extractRecordKey r' = extractRecordKey r := by
  induction ops with
  | nil => intro l r h; exact ⟨r, h, rfl, rfl⟩
  | cons op rest ih =>
      intro l r h
      rcases applyOp_preserves env newId l op h with ⟨r₁, h₁, hid₁, hk₁⟩
      rcases ih (applyOp env newId l op) r₁ h₁ with ⟨r', h', hid', hk'⟩
      exact ⟨r', h', hid'.trans hid₁, hk'.trans hk₁⟩

theorem strContains_empty_tag (n : String) : strContains "" ("Synced from " ++ n) = false := by
  unfold strContains
  rw [String.data_append]
  have hS : ("Synced from ").data = 'S' :: "ynced from ".data := rfl
  rw [hS]
  rfl

theorem isSyncedFromView_iff (text n : String) :
    isSyncedFromView text n = true ↔ strContains text ("Synced from " ++ n) = true := by
  unfold isSyncedFromView
  by_cases h : text = ""
  · subst h
    rw [if_pos rfl, strContains_empty_tag]
  · rw [if_neg h]

theorem syncOneWay_singleton (env : Op → Bool) (sv tv z t : String) (s : Rec) (tgt : List Rec) :
    syncOneWayFull env sv tv z t [s] tgt =
      processRecord env sv tv z t (buildTargetLookup tgt) s := by
  unfold syncOneWayFull
  rw [syncList_cons, syncList_nil]
  simp

/-- C2: a source record whose annotation carries the target namespace's
loop marker is skipped entirely by a directional pass: no remote create
or update is attempted for it, its outcome is skipped-as-loop, it
contributes nothing to the count, and the target record set is left
unchanged — regardless of whether its key is present in the target. -/
theorem c2_loop_guard_skips_source (env : Op → Bool) (newId : String → String)
    (source_view target_view zone sync_time : String)
    (target_records : List Rec) (m : List (String × Rec)) (s : Rec)
    (h : isSyncedFromView s.comment target_view = true) :
    processRecord env source_view target_view zone sync_time m s =
      (0, [], [Outcome.skippedLoop (extractRecordKey s)]) ∧
    syncOneWayFull env source_view target_view zone sync_time [s] target_records =
      (0, [], [Outcome.skippedLoop (extractRecordKey s)]) ∧
    applyOps env newId target_records
        (syncOneWayFull env source_view target_view zone sync_time [s] target_records).2.1 =
      target_records := by
  have hp := processRecord_skip env source_view zone sync_time m h
  have hp2 := processRecord_skip env source_view zone sync_time
    (buildTargetLookup target_records) h
  have hs : syncOneWayFull env source_view target_view zone sync_time [s] target_records =
      (0, [], [Outcome.skippedLoop (extractRecordKey s)]) := by
    rw [syncOneWay_singleton, hp2]
  exact ⟨hp, hs, by rw [hs]; rfl⟩

/-- C2 witness: a concrete record annotated as synced from view B is
skipped by the A-to-B pass. -/
theorem c2_loop_guard_skips_source_witness :
    isSyncedFromView "Synced from B on 2024-05-01 10:00:00 UTC" "B" = true ∧
    processRecord (fun _ => true) "A" "B" "zone.example.com." "2024-05-02 10:00:00 UTC" []
        ⟨"s1", "host1", RdataField.fields (some "10.0.0.1"),
         "Synced from B on 2024-05-01 10:00:00 UTC", "", "A"⟩ =
      (0, [], [Outcome.skippedLoop "host1"]) :=
  ⟨by decide,
   (c2_loop_guard_skips_source (fun _ => true) (fun _ => "") "A" "B" "zone.example.com."
      "2024-05-02 10:00:00 UTC" [] []
      ⟨"s1", "host1", RdataField.fields (some "10.0.0.1"),
       "Synced from B on 2024-05-01 10:00:00 UTC", "", "A"⟩ (by decide)).1⟩

/-- C5 counterexample: the claim's cross-namespace consequence is false
on the code: the marker encoded for namespace "AB" is accepted by
`_is_synced_from_view` as a marker for the distinct namespace "A",
because the tag test is a substring test and the tag for "A" is a
prefix of the tag for "AB". -/
theorem c5_counterexample :
    isSyncedFromView (getSyncMarker "AB" "2024-05-01 10:00:00 UTC" "") "A" = true ∧
    ("AB" : String) ≠ "A" := by
  constructor
  · decide
  · decide

/-- C5 (amended): `_is_synced_from_view` returns true iff the annotation
text contains the encoder's exact tag `"Synced from " + N` as a
substring; any text not containing that tag — in particular unrelated
human-written comments — is never matched. (The claim's further
consequence that a marker encoded for any distinct namespace M never
matches N fails, since the tag for N may occur inside the marker for M,
e.g. when N is a prefix of M; see the counterexample.) -/
theorem c5_tag_containment (text namespace_name : String) :
    (isSyncedFromView text namespace_name = true ↔
      strContains text ("Synced from " ++ namespace_name) = true) ∧
    (strContains text ("Synced from " ++ namespace_name) = false →
      isSyncedFromView text namespace_name = false) := by
  refine ⟨isSyncedFromView_iff text namespace_name, ?_⟩
  intro hf
  rcases Bool.eq_false_or_eq_true (isSyncedFromView text namespace_name) with h | h
  · exfalso
    have hc := (isSyncedFromView_iff text namespace_name).mp h
    rw [hf] at hc
    exact Bool.noConfusion hc
  · exact h

/-- C5 witness: a human comment without the tag for "A" is not matched. -/
theorem c5_tag_containment_witness :
    strContains "manually maintained record" ("Synced from " ++ "A") = false ∧
    isSyncedFromView "manually maintained record" "A" = false :=
  ⟨by decide, (c5_tag_containment "manually maintained record" "A").2 (by decide)⟩

/-- C1: for a source record S and the target record T found under the
same key with differing addresses, one directional pass updates T to
S's address with a fresh marker `encode(sourceNamespace, now,
S.createdAt)` when `wasSyncedFrom(T.annotation, sourceNamespace)` holds
(and the update call succeeds), counting one sync; otherwise the pair
is a conflict with no create or update attempted; with equal addresses
nothing is attempted and nothing counted. -/
theorem c1_diverged_update_or_conflict (env : Op → Bool) (newId : String → String)
    (source_view target_view zone sync_time : String)
    (target_records : List Rec) (s u : Rec)
    (hguard : isSyncedFromView s.comment target_view = false)
    (hfound : assocFind (buildTargetLookup target_records) (extractRecordKey s) = some u) :
    (recordAddress s ≠ recordAddress u →
      isSyncedFromView u.comment source_view = true →
      u.id ≠ "" →
      env (Op.update target_view u.id (recordAddress s)
          (getSyncMarker source_view sync_time s.created_at)) = true →
      syncOneWayFull env source_view target_view zone sync_time [s] target_records =
        (1, [Op.update target_view u.id (recordAddress s)
              (getSyncMarker source_view sync_time s.created_at)],
         [Outcome.updated (extractRecordKey s)]) ∧
      lastFind (applyOps env newId target_records
          [Op.update target_view u.id (recordAddress s)
            (getSyncMarker source_view sync_time s.created_at)]) (extractRecordKey s) =
        some { u with
               rdata := RdataField.fields (some (recordAddress s)),
               comment := getSyncMarker source_view sync_time s.created_at }) ∧
    (recordAddress s ≠ recordAddress u →
      isSyncedFromView u.comment source_view = false →
      syncOneWayFull env source_view target_view zone sync_time [s] target_records =
        (0, [], [Outcome.conflict (extractRecordKey s) (recordAddress s) (recordAddress u)])) ∧
    (recordAddress s = recordAddress u →
      syncOneWayFull env source_view target_view zone sync_time [s] target_records =
        (0, [], [Outcome.inSync (extractRecordKey s)])) := by
  have hl := syncOneWay_singleton env source_view target_view zone sync_time s target_records
  refine ⟨?_, ?_, ?_⟩
  · intro h3 h4 h6 h5
    constructor
    · rw [hl, processRecord_update env zone sync_time hguard hfound h3 h4 h6]
      simp [h5]
    · show lastFind (applyOp env newId target_records
          (Op.update target_view u.id (recordAddress s)
            (getSyncMarker source_view sync_time s.created_at))) (extractRecordKey s) = _
      rw [applyOp_update_eq]
      simp only [h5, if_true]
      rw [lastFind_map _ (fun r => by
        by_cases hr : r.id = u.id <;> simp [hr, extractRecordKey])]
      have hlf : lastFind target_records (extractRecordKey s) = some u := by
        rw [← assocFind_buildTargetLookup]
        exact hfound
      rw [hlf]
      simp
  · intro h3 h4
    rw [hl, processRecord_conflict env zone sync_time hguard hfound h3 h4]
  · intro h3
    rw [hl, processRecord_inSync env source_view zone sync_time hguard hfound h3]

/-- C1 witness: concrete diverged pair with source lineage is updated. -/
theorem c1_diverged_update_or_conflict_witness :
    isSyncedFromView "" "B" = false ∧
    syncOneWayFull (fun _ => true) "A" "B" "zone.example.com." "2024-05-02 10:00:00 UTC"
        [⟨"s1", "host1", RdataField.fields (some "2.2.2.2"), "", "2024-01-01", "A"⟩]
        [⟨"t1", "host1", RdataField.fields (some "1.1.1.1"),
          "Synced from A on 2024-04-01 00:00:00 UTC", "", "B"⟩] =
      (1, [Op.update "B" "t1" "2.2.2.2"
            (getSyncMarker "A" "2024-05-02 10:00:00 UTC" "2024-01-01")],
       [Outcome.updated "host1"]) :=
  ⟨by decide,
   ((c1_diverged_update_or_conflict (fun _ => true) (fun _ => "") "A" "B" "zone.example.com."
      "2024-05-02 10:00:00 UTC"
      [⟨"t1", "host1", RdataField.fields (some "1.1.1.1"),
        "Synced from A on 2024-04-01 00:00:00 UTC", "", "B"⟩]
      ⟨"s1", "host1", RdataField.fields (some "2.2.2.2"), "", "2024-01-01", "A"⟩
      ⟨"t1", "host1", RdataField.fields (some "1.1.1.1"),
        "Synced from A on 2024-04-01 00:00:00 UTC", "", "B"⟩
      (by decide) (by decide)).1 (by decide) (by decide) (by decide) (by decide)).1⟩

/-- C6: a source record whose key is absent from the target index leads
the pass to create a target record with the source's address and an
annotation satisfying `wasSyncedFrom(annotation, sourceNamespace)`; a
successful create counts one sync, and a failed create is recorded as a
failure while the remaining source records are still processed. -/
theorem c6_create_when_missing (env : Op → Bool) (newId : String → String)
    (source_view target_view zone sync_time : String)
    (target_records rest : List Rec) (s : Rec)
    (hguard : isSyncedFromView s.comment target_view = false)
    (hmiss : assocFind (buildTargetLookup target_records) (extractRecordKey s) = none) :
    isSyncedFromView (getSyncMarker source_view sync_time s.created_at) source_view = true ∧
    (env (Op.create target_view (extractRecordKey s) (recordAddress s) zone
        (getSyncMarker source_view sync_time s.created_at)) = true →
      syncOneWayFull env source_view target_view zone sync_time (s :: rest) target_records =
        (1 + (syncOneWayFull env source_view target_view zone sync_time rest target_records).1,
         Op.create target_view (extractRecordKey s) (recordAddress s) zone
             (getSyncMarker source_view sync_time s.created_at) ::
           (syncOneWayFull env source_view target_view zone sync_time rest target_records).2.1,
         Outcome.created (extractRecordKey s) ::
           (syncOneWayFull env source_view target_view zone sync_time rest target_records).2.2) ∧
      applyOp env newId target_records
          (Op.create target_view (extractRecordKey s) (recordAddress s) zone
            (getSyncMarker source_view sync_time s.created_at)) =
        target_records ++
          [createdRec newId target_view (extractRecordKey s) (recordAddress s)
            (getSyncMarker source_view sync_time s.created_at)] ∧
      recordAddress (createdRec newId target_view (extractRecordKey s) (recordAddress s)
          (getSyncMarker source_view sync_time s.created_at)) = recordAddress s ∧
      isSyncedFromView (createdRec newId target_view (extractRecordKey s) (recordAddress s)
          (getSyncMarker source_view sync_time s.created_at)).comment source_view = true) ∧
    (env (Op.create target_view (extractRecordKey s) (recordAddress s) zone
        (getSyncMarker source_view sync_time s.created_at)) = false →
      syncOneWayFull env source_view target_view zone sync_time (s :: rest) target_records =
        ((syncOneWayFull env source_view target_view zone sync_time rest target_records).1,
         Op.create target_view (extractRecordKey s) (recordAddress s) zone
             (getSyncMarker source_view sync_time s.created_at) ::
           (syncOneWayFull env source_view target_view zone sync_time rest target_records).2.1,
         Outcome.createFailed (extractRecordKey s) ::
           (syncOneWayFull env source_view target_view zone sync_time rest target_records).2.2)) := by
  have hstep := processRecord_create env source_view zone sync_time hguard hmiss
  refine ⟨isSyncedFromView_getSyncMarker source_view sync_time s.created_at, ?_, ?_⟩
  · intro h5
    refine ⟨?_, ?_, rfl, isSyncedFromView_getSyncMarker source_view sync_time s.created_at⟩
    · show syncList env source_view target_view zone sync_time
          (buildTargetLookup target_records) (s :: rest) = _
      rw [syncList_cons, hstep]
      simp [h5]
      exact ⟨rfl, rfl, rfl⟩
    · rw [applyOp_create_eq]
      simp [h5]
  · intro h5
    show syncList env source_view target_view zone sync_time
        (buildTargetLookup target_records) (s :: rest) = _
    rw [syncList_cons, hstep]
    simp [h5]
    exact ⟨rfl, rfl, rfl⟩

/-- C6 witness: a concrete record missing from the target is created. -/
theorem c6_create_when_missing_witness :
    isSyncedFromView "" "B" = false ∧
    syncOneWayFull (fun _ => true) "A" "B" "zone.example.com." "2024-05-02 10:00:00 UTC"
        [⟨"s1", "newhost", RdataField.fields (some "10.0.0.5"), "", "", "A"⟩] [] =
      (1 + 0,
       Op.create "B" "newhost" "10.0.0.5" "zone.example.com."
           (getSyncMarker "A" "2024-05-02 10:00:00 UTC" "") :: [],
       Outcome.created "newhost" :: []) := by
  refine ⟨by decide, ?_⟩
  exact ((c6_create_when_missing (fun _ => true) (fun _ => "") "A" "B" "zone.example.com."
      "2024-05-02 10:00:00 UTC" [] []
      ⟨"s1", "newhost", RdataField.fields (some "10.0.0.5"), "", "", "A"⟩
      (by decide) (by decide)).2.1 (by decide)).1

/-- C10: a record whose `rdata` field is absent, not a dict, or lacking
an `address` entry is handled totally by the pass, its address read as
the empty string; a source and target record under the same key that
both lack an address compare as equal and are classified as already in
sync, with no mutation attempted, while the rest of the pass proceeds
(one outcome per source record). -/
theorem c10_missing_rdata_defaults_empty (env : Op → Bool)
    (source_view target_view zone sync_time : String)
    (target_records rest : List Rec) (s u : Rec)
    (hs : s.rdata = RdataField.absent ∨ s.rdata = RdataField.nonDict ∨
          s.rdata = RdataField.fields none)
    (hu : u.rdata = RdataField.absent ∨ u.rdata = RdataField.nonDict ∨
          u.rdata = RdataField.fields none)
    (hguard : isSyncedFromView s.comment target_view = false)
    (hfound : assocFind (buildTargetLookup target_records) (extractRecordKey s) = some u) :
    recordAddress s = "" ∧ recordAddress u = "" ∧
    syncOneWayFull env source_view target_view zone sync_time (s :: rest) target_records =
      ((syncOneWayFull env source_view target_view zone sync_time rest target_records).1,
       (syncOneWayFull env source_view target_view zone sync_time rest target_records).2.1,
       Outcome.inSync (extractRecordKey s) ::
         (syncOneWayFull env source_view target_view zone sync_time rest target_records).2.2) ∧
    (syncOneWayFull env source_view target_view zone sync_time (s :: rest) target_records).2.2.length
      = rest.length + 1 := by
  have has : recordAddress s = "" := by
    rcases hs with h | h | h <;> simp [recordAddress, h]
  have hau : recordAddress u = "" := by
    rcases hu with h | h | h <;> simp [recordAddress, h]
  have heq : recordAddress s = recordAddress u := by rw [has, hau]
  have hstep := processRecord_inSync env source_view zone sync_time hguard hfound heq
  have hpass : syncOneWayFull env source_view target_view zone sync_time (s :: rest) target_records =
      ((syncOneWayFull env source_view target_view zone sync_time rest target_records).1,
       (syncOneWayFull env source_view target_view zone sync_time rest target_records).2.1,
       Outcome.inSync (extractRecordKey s) ::
         (syncOneWayFull env source_view target_view zone sync_time rest target_records).2.2) := by
    show syncList env source_view target_view zone sync_time
        (buildTargetLookup target_records) (s :: rest) = _
    rw [syncList_cons, hstep]
    simp
    exact ⟨rfl, rfl, rfl⟩
  refine ⟨has, hau, hpass, ?_⟩
  rw [hpass]
  show (Outcome.inSync (extractRecordKey s) ::
      (syncOneWayFull env source_view target_view zone sync_time rest target_records).2.2).length
    = rest.length + 1
  rw [List.length_cons]
  show (syncList env source_view target_view zone sync_time
      (buildTargetLookup target_records) rest).2.2.length + 1 = rest.length + 1
  rw [syncList_trace_length]

/-- C10 witness: a source and target record that both lack an `rdata`
mapping are reported as already in sync. -/
theorem c10_missing_rdata_defaults_empty_witness :
    isSyncedFromView "note" "B" = false ∧
    syncOneWayFull (fun _ => true) "A" "B" "zone.example.com." "2024-05-02 10:00:00 UTC"
        [⟨"s1", "host1", RdataField.absent, "note", "", "A"⟩]
        [⟨"t1", "host1", RdataField.fields none, "", "", "B"⟩] =
      (0, [], [Outcome.inSync "host1"]) := by
  refine ⟨by decide, ?_⟩
  have h := (c10_missing_rdata_defaults_empty (fun _ => true) "A" "B" "zone.example.com."
      "2024-05-02 10:00:00 UTC"
      [⟨"t1", "host1", RdataField.fields none, "", "", "B"⟩] []
      ⟨"s1", "host1", RdataField.absent, "note", "", "A"⟩
      ⟨"t1", "host1", RdataField.fields none, "", "", "B"⟩
      (Or.inl rfl) (Or.inr (Or.inr rfl)) (by decide) (by decide)).2.2.1
  exact h

/-- C4 counterexample: the value returned by `sync_records_one_way` does
not report four distinguishable counts: a pass that flags one conflict
returns exactly the same value (0) as a pass whose only record is
already in sync, and no list of conflicting keys is part of the return
value, so the caller cannot read the conflict outcome from the result. -/
theorem c4_counterexample :
    sync_records_one_way (fun _ => true) "A" "B" "zone.example.com." "2024-05-02 10:00:00 UTC"
        [⟨"s1", "host1", RdataField.fields (some "10.0.0.1"), "", "", "A"⟩]
        [⟨"t1", "host1", RdataField.fields (some "10.0.0.2"), "", "", "B"⟩] =
      sync_records_one_way (fun _ => true) "A" "B" "zone.example.com." "2024-05-02 10:00:00 UTC"
        [⟨"s1", "host1", RdataField.fields (some "10.0.0.1"), "", "", "A"⟩]
        [⟨"t1", "host1", RdataField.fields (some "10.0.0.1"), "", "", "B"⟩] ∧
    (syncOneWayFull (fun _ => true) "A" "B" "zone.example.com." "2024-05-02 10:00:00 UTC"
        [⟨"s1", "host1", RdataField.fields (some "10.0.0.1"), "", "", "A"⟩]
        [⟨"t1", "host1", RdataField.fields (some "10.0.0.2"), "", "", "B"⟩]).2.2 =
      [Outcome.conflict "host1" "10.0.0.1" "10.0.0.2"] ∧
    (syncOneWayFull (fun _ => true) "A" "B" "zone.example.com." "2024-05-02 10:00:00 UTC"
        [⟨"s1", "host1", RdataField.fields (some "10.0.0.1"), "", "", "A"⟩]
        [⟨"t1", "host1", RdataField.fields (some "10.0.0.1"), "", "", "B"⟩]).2.2 =
      [Outcome.inSync "host1"] := by
  refine ⟨?_, ?_, ?_⟩ <;> decide

/-- C4 (amended): one directional pass returns only a single integer,
`synced_count`, equal to the number of successful creates and updates
combined; the skipped-as-loop, conflict and in-sync outcomes are logged
per record but are not part of the returned value, and no list of
conflicting keys is returned. -/
theorem c4_amended_single_count (env : Op → Bool)
    (source_view target_view zone sync_time : String)
    (source_records target_records : List Rec) :
    sync_records_one_way env source_view target_view zone sync_time
        source_records target_records =
      (syncOneWayFull env source_view target_view zone sync_time
        source_records target_records).2.2.countP isSyncedOutcome := by
  unfold sync_records_one_way syncOneWayFull
  exact syncList_count_eq env source_view target_view zone sync_time
    (buildTargetLookup target_records) source_records

/-- C7: evaluation of `get_a_records` at the failing input — a fetch
whose HTTP request fails (`_make_request` returns `None`) yields `[]`,
the very value returned for a successfully fetched empty zone, so the
caller cannot distinguish failure from emptiness; the `is None` check
in `sync_records_one_way` can therefore never fire. -/
theorem c7_fetch_failure_conflated_with_empty :
    get_a_records "A" none = get_a_records "A" (some []) ∧
    get_a_records "A" none = ([] : List Rec) ∧
    get_a_records "A" (some
        [⟨"r1", "host1", RdataField.fields (some "10.0.0.1"), "", "", "A"⟩,
         ⟨"r2", "host2", RdataField.fields (some "10.0.0.2"), "", "", "B"⟩]) =
      [⟨"r1", "host1", RdataField.fields (some "10.0.0.1"), "", "", "A"⟩] := by
  exact ⟨rfl, rfl, by decide⟩

/-- C8 counterexample: in `run_sync`, both directional passes run inside
a single try block: when the first pass fails outright, the error
propagates and the second pass's result (here `3`) is thrown away and
never attempted — and a failed fetch does not abort a pass: with the
target fetch failing, the pass proceeds against the empty list and even
issues a create, instead of aborting. -/
theorem c8_counterexample :
    run_sync_seq (Except.error "pass 1 failure") (Except.ok 3) =
      Except.error "pass 1 failure" ∧
    syncPassFromResponses (fun _ => true) "A" "B" "zone.example.com." "2024-05-02 10:00:00 UTC"
        (some [⟨"s1", "host1", RdataField.fields (some "10.0.0.5"), "", "", "A"⟩]) none =
      (1, [Op.create "B" "host1" "10.0.0.5" "zone.example.com."
            (getSyncMarker "A" "2024-05-02 10:00:00 UTC" "")],
       [Outcome.created "host1"]) := by
  exact ⟨rfl, by decide⟩

/-- C8 (amended): `run_sync` executes the A-to-B pass and then the
B-to-A pass sequentially inside one try block; a run in which both
passes complete yields both counts, but an error raised by the first
pass propagates immediately, so the second pass is not attempted and no
result is returned; and a failure to fetch a record set does not abort
a pass — the failed fetch yields the empty record list and the pass
continues against it. -/
theorem c8_amended_sequential_single_try (e : String) (pass2 : Except String Nat)
    (c1 c2 : Nat) (view_name : String) (env : Op → Bool)
    (source_view target_view zone sync_time : String) (sourceResponse : Option (List Rec)) :
    run_sync_seq (Except.error e) pass2 = Except.error e ∧
    run_sync_seq (Except.ok c1) (Except.ok c2) = Except.ok (c1, c2) ∧
    get_a_records view_name none = [] ∧
    syncPassFromResponses env source_view target_view zone sync_time sourceResponse none =
      syncOneWayFull env source_view target_view zone sync_time
        (get_a_records source_view sourceResponse) [] := by
  exact ⟨rfl, rfl, rfl, rfl⟩

/-- C9: a directional pass issues every remote mutation through the
target view's client only, and it deletes nothing: any key absent from
the source set keeps exactly its previous target binding, and every
pre-existing target record survives (same id and key) in the target
state after the pass's calls are applied. -/
theorem c9_no_deletion_frame (env : Op → Bool) (newId : String → String)
    (source_view target_view zone sync_time : String)
    (source_records target_records : List Rec)
    (hids : ∀ r ∈ target_records, ∀ r' ∈ target_records,
        r.id = r'.id → r.id ≠ "" → r = r') :
    (∀ op ∈ (syncOneWayFull env source_view target_view zone sync_time
        source_records target_records).2.1, opView op = target_view) ∧
    (∀ k, k ∉ source_records.map extractRecordKey →
      lastFind (applyOps env newId target_records
          (syncOneWayFull env source_view target_view zone sync_time
            source_records target_records).2.1) k = lastFind target_records k) ∧
    (∀ r ∈ target_records, ∃ r', r' ∈ applyOps env newId target_records
          (syncOneWayFull env source_view target_view zone sync_time
            source_records target_records).2.1 ∧
        r'.id = r.id ∧ extractRecordKey r' = extractRecordKey r) := by
  have hshape := syncList_ops_shape env source_view target_view zone sync_time
    (buildTargetLookup target_records) source_records
  refine ⟨?_, ?_, ?_⟩
  · intro op hop
    rcases hshape op hop with ⟨s, _, hform⟩
    rcases hform with ⟨_, heq⟩ | ⟨u, _, _, heq⟩ <;> rw [heq] <;> rfl
  · intro k hk
    apply lastFind_applyOps_frame
    · intro op hop vw ke ip zo cm heq
      rcases hshape op hop with ⟨s, hs, hform⟩
      rcases hform with ⟨_, hop'⟩ | ⟨u, _, _, hop'⟩
      · rw [heq] at hop'
        injection hop' with e1 e2 e3 e4 e5
        subst e2
        constructor
        · intro he
          exact hk (he ▸ List.mem_map_of_mem extractRecordKey hs)
        · exact extractRecordKey_ne_empty s
      · rw [heq] at hop'
        exact Op.noConfusion hop'
    · intro op hop vw rid ip cm heq u' hlf
      rcases hshape op hop with ⟨s, hs, hform⟩
      rcases hform with ⟨_, hop'⟩ | ⟨u, hfound, hune, hop'⟩
      · rw [heq] at hop'
        exact Op.noConfusion hop'
      · rw [heq] at hop'
        injection hop' with e1 e2 e3 e4
        subst e2
        intro hid
        have hu : u ∈ target_records ∧ extractRecordKey u = extractRecordKey s :=
          lastFind_mem ((assocFind_buildTargetLookup target_records (extractRecordKey s)) ▸ hfound)
        have hu' : u' ∈ target_records ∧ extractRecordKey u' = k := lastFind_mem hlf
        have hne' : u'.id ≠ "" := hid ▸ hune
        have heqr := hids u' hu'.1 u hu.1 hid.symm hne'
        rw [heqr] at hu'
        exact hk (hu'.2 ▸ hu.2 ▸ List.mem_map_of_mem extractRecordKey hs)
  · intro r hr
    rcases applyOps_preserves env newId
        (syncOneWayFull env source_view target_view zone sync_time
          source_records target_records).2.1 target_records r hr with ⟨r', h1, h2, h3⟩
    exact ⟨r', h1, h2, h3⟩

/-- C9 witness: with a concrete source and target, a target key absent
from the source keeps its binding after the pass's calls are applied. -/
theorem c9_no_deletion_frame_witness :
    (∀ r ∈ ([⟨"t1", "host1", RdataField.fields (some "1.1.1.1"),
              "Synced from A on 2024-04-01 00:00:00 UTC", "", "B"⟩,
             ⟨"t2", "keep", RdataField.fields (some "9.9.9.9"), "", "", "B"⟩] : List Rec),
       ∀ r' ∈ ([⟨"t1", "host1", RdataField.fields (some "1.1.1.1"),
                 "Synced from A on 2024-04-01 00:00:00 UTC", "", "B"⟩,
                ⟨"t2", "keep", RdataField.fields (some "9.9.9.9"), "", "", "B"⟩] : List Rec),
         r.id = r'.id → r.id ≠ "" → r = r') ∧
    ("keep" ∉ ([⟨"s1", "host1", RdataField.fields (some "2.2.2.2"), "", "", "A"⟩] : List Rec).map
        extractRecordKey) ∧
    lastFind (applyOps (fun _ => true) (fun _ => "")
        [⟨"t1", "host1", RdataField.fields (some "1.1.1.1"),
          "Synced from A on 2024-04-01 00:00:00 UTC", "", "B"⟩,
         ⟨"t2", "keep", RdataField.fields (some "9.9.9.9"), "", "", "B"⟩]
        (syncOneWayFull (fun _ => true) "A" "B" "zone.example.com." "2024-05-02 10:00:00 UTC"
          [⟨"s1", "host1", RdataField.fields (some "2.2.2.2"), "", "", "A"⟩]
          [⟨"t1", "host1", RdataField.fields (some "1.1.1.1"),
            "Synced from A on 2024-04-01 00:00:00 UTC", "", "B"⟩,
           ⟨"t2", "keep", RdataField.fields (some "9.9.9.9"), "", "", "B"⟩]).2.1) "keep" =
      lastFind [⟨"t1", "host1", RdataField.fields (some "1.1.1.1"),
          "Synced from A on 2024-04-01 00:00:00 UTC", "", "B"⟩,
         ⟨"t2", "keep", RdataField.fields (some "9.9.9.9"), "", "", "B"⟩] "keep" :=
  ⟨by decide, by decide,
   (c9_no_deletion_frame (fun _ => true) (fun _ => "") "A" "B" "zone.example.com."
      "2024-05-02 10:00:00 UTC"
      [⟨"s1", "host1", RdataField.fields (some "2.2.2.2"), "", "", "A"⟩]
      [⟨"t1", "host1", RdataField.fields (some "1.1.1.1"),
        "Synced from A on 2024-04-01 00:00:00 UTC", "", "B"⟩,
       ⟨"t2", "keep", RdataField.fields (some "9.9.9.9"), "", "", "B"⟩]
      (by decide)).2.1 "keep" (by decide)⟩

theorem syncList_ops_append (env : Op → Bool) (sv tv z t : String) (m : List (String × Rec))
    (l₁ l₂ : List Rec) :
    (syncList env sv tv z t m (l₁ ++ l₂)).2.1 =
      (syncList env sv tv z t m l₁).2.1 ++ (syncList env sv tv z t m l₂).2.1 := by
  rw [syncList_append]

theorem syncList_ops_cons (env : Op → Bool) (sv tv z t : String) (m : List (String × Rec))
    (s : Rec) (rest : List Rec) :
    (syncList env sv tv z t m (s :: rest)).2.1 =
      (processRecord env sv tv z t m s).2.1 ++ (syncList env sv tv z t m rest).2.1 := by
  rw [syncList_cons]

theorem applyOps_append_eq (env : Op → Bool) (newId : String → String) (l : List Rec)
    (ops₁ ops₂ : List Op) :
    applyOps env newId l (ops₁ ++ ops₂) =
      applyOps env newId (applyOps env newId l ops₁) ops₂ := by
  unfold applyOps
  rw [List.foldl_append]

theorem recordAddress_createdRec (newId : String → String) (vw ke ip cm : String) :
    recordAddress (createdRec newId vw ke ip cm) = ip := rfl

theorem lastFind_applyOps_others (env : Op → Bool) (newId : String → String)
    (sv tv z t : String) (tgt others l : List Rec) (k : String)
    (hk : ∀ s' ∈ others, extractRecordKey s' ≠ k)
    (hsafe : ∀ u', lastFind l k = some u' →
        ∀ u ∈ tgt, u.id ≠ "" → extractRecordKey u ≠ k → u.id ≠ u'.id) :
    lastFind (applyOps env newId l
        (syncList env sv tv z t (buildTargetLookup tgt) others).2.1) k = lastFind l k := by
  apply lastFind_applyOps_frame
  · intro op hop vw ke ip zo cm heq
    rcases syncList_ops_shape env sv tv z t (buildTargetLookup tgt) others op hop with
      ⟨s', hs', hform⟩
    rcases hform with ⟨_, hop'⟩ | ⟨u, _, _, hop'⟩
    · rw [heq] at hop'
      injection hop' with e1 e2 e3 e4 e5
      subst e2
      exact ⟨hk s' hs', extractRecordKey_ne_empty s'⟩
    · rw [heq] at hop'
      exact Op.noConfusion hop'
  · intro op hop vw rid ip cm heq u' hlf
    rcases syncList_ops_shape env sv tv z t (buildTargetLookup tgt) others op hop with
      ⟨s', hs', hform⟩
    rcases hform with ⟨_, hop'⟩ | ⟨u, hfound, hune, hop'⟩
    · rw [heq] at hop'
      exact Op.noConfusion hop'
    · rw [heq] at hop'
      injection hop' with e1 e2 e3 e4
      subst e2
      have hu : u ∈ tgt ∧ extractRecordKey u = extractRecordKey s' :=
        lastFind_mem ((assocFind_buildTargetLookup tgt (extractRecordKey s')) ▸ hfound)
      have hukey : extractRecordKey u ≠ k := by
        rw [hu.2]
        exact hk s' hs'
      exact hsafe u' hlf u hu.1 hune hukey

theorem pass2_record_noop_split (env : Op → Bool) (newId : String → String)
    (sv tv z t t2 : String) (pre post tgt : List Rec) (s : Rec)
    (hkpre : ∀ s' ∈ pre, extractRecordKey s' ≠ extractRecordKey s)
    (hkpost : ∀ s' ∈ post, extractRecordKey s' ≠ extractRecordKey s)
    (hids : ∀ r ∈ tgt, ∀ r' ∈ tgt, r.id = r'.id → r.id ≠ "" → r = r')
    (hfresh : ∀ a, ∀ r ∈ tgt, newId a ≠ r.id)
    (henv : ∀ op, env op = true) :
    (processRecord env sv tv z t2
      (buildTargetLookup (applyOps env newId tgt
        (syncList env sv tv z t (buildTargetLookup tgt) (pre ++ s :: post)).2.1)) s).1 = 0 ∧
    (processRecord env sv tv z t2
      (buildTargetLookup (applyOps env newId tgt
        (syncList env sv tv z t (buildTargetLookup tgt) (pre ++ s :: post)).2.1)) s).2.1 = [] := by
  rcases Bool.eq_false_or_eq_true (isSyncedFromView s.comment tv) with h1 | h1
  · rw [processRecord_skip env sv z t2 _ h1]
    exact ⟨rfl, rfl⟩
  have hops : (syncList env sv tv z t (buildTargetLookup tgt) (pre ++ s :: post)).2.1 =
      (syncList env sv tv z t (buildTargetLookup tgt) pre).2.1 ++
        ((processRecord env sv tv z t (buildTargetLookup tgt) s).2.1 ++
          (syncList env sv tv z t (buildTargetLookup tgt) post).2.1) := by
    rw [syncList_ops_append, syncList_ops_cons]
  have hsplit : applyOps env newId tgt
      (syncList env sv tv z t (buildTargetLookup tgt) (pre ++ s :: post)).2.1 =
      applyOps env newId
        (applyOps env newId
          (applyOps env newId tgt (syncList env sv tv z t (buildTargetLookup tgt) pre).2.1)
          (processRecord env sv tv z t (buildTargetLookup tgt) s).2.1)
        (syncList env sv tv z t (buildTargetLookup tgt) post).2.1 := by
    rw [hops, applyOps_append_eq, applyOps_append_eq]
  have hsafe₀ : ∀ u', lastFind tgt (extractRecordKey s) = some u' →
      ∀ u ∈ tgt, u.id ≠ "" → extractRecordKey u ≠ extractRecordKey s → u.id ≠ u'.id := by
    intro u' hlf u hu hune hukey he
    have h' := lastFind_mem hlf
    have heqr := hids u hu u' h'.1 he hune
    rw [heqr] at hukey
    exact hukey h'.2
  have hst1 : lastFind (applyOps env newId tgt
      (syncList env sv tv z t (buildTargetLookup tgt) pre).2.1) (extractRecordKey s)
      = lastFind tgt (extractRecordKey s) :=
    lastFind_applyOps_others env newId sv tv z t tgt pre tgt (extractRecordKey s) hkpre hsafe₀
  have hsafe₁ : ∀ u', lastFind (applyOps env newId tgt
      (syncList env sv tv z t (buildTargetLookup tgt) pre).2.1) (extractRecordKey s) = some u' →
      ∀ u ∈ tgt, u.id ≠ "" → extractRecordKey u ≠ extractRecordKey s → u.id ≠ u'.id := by
    intro u' hlf'
    exact hsafe₀ u' (hst1 ▸ hlf')
  rcases h2 : assocFind (buildTargetLookup tgt) (extractRecordKey s) with _ | u
  · -- create case in pass 1
    have henvc := henv (Op.create tv (extractRecordKey s) (recordAddress s) z
      (getSyncMarker sv t s.created_at))
    have hopsS : (processRecord env sv tv z t (buildTargetLookup tgt) s).2.1 =
        [Op.create tv (extractRecordKey s) (recordAddress s) z
          (getSyncMarker sv t s.created_at)] := by
      rw [processRecord_create env sv z t h1 h2, if_pos henvc]
    have hl₂ : applyOps env newId
        (applyOps env newId tgt (syncList env sv tv z t (buildTargetLookup tgt) pre).2.1)
        (processRecord env sv tv z t (buildTargetLookup tgt) s).2.1 =
        (applyOps env newId tgt (syncList env sv tv z t (buildTargetLookup tgt) pre).2.1) ++
          [createdRec newId tv (extractRecordKey s) (recordAddress s)
            (getSyncMarker sv t s.created_at)] := by
      rw [hopsS]
      show applyOp env newId _ _ = _
      rw [applyOp_create_eq, if_pos henvc]
    have hcreatedkey : extractRecordKey (createdRec newId tv (extractRecordKey s)
        (recordAddress s) (getSyncMarker sv t s.created_at)) = extractRecordKey s :=
      extractRecordKey_createdRec newId tv (extractRecordKey s) (recordAddress s)
        (getSyncMarker sv t s.created_at) (extractRecordKey_ne_empty s)
    have hlf₂ : lastFind (applyOps env newId
        (applyOps env newId tgt (syncList env sv tv z t (buildTargetLookup tgt) pre).2.1)
        (processRecord env sv tv z t (buildTargetLookup tgt) s).2.1) (extractRecordKey s) =
        some (createdRec newId tv (extractRecordKey s) (recordAddress s)
          (getSyncMarker sv t s.created_at)) := by
      rw [hl₂, lastFind_append]
      have hone : lastFind [createdRec newId tv (extractRecordKey s) (recordAddress s)
          (getSyncMarker sv t s.created_at)] (extractRecordKey s) =
          some (createdRec newId tv (extractRecordKey s) (recordAddress s)
            (getSyncMarker sv t s.created_at)) := by
        rw [lastFind_cons, lastFind_nil]
        simp [hcreatedkey]
      rw [hone]
    have hsafe₂ : ∀ u', lastFind (applyOps env newId
        (applyOps env newId tgt (syncList env sv tv z t (buildTargetLookup tgt) pre).2.1)
        (processRecord env sv tv z t (buildTargetLookup tgt) s).2.1) (extractRecordKey s) =
          some u' →
        ∀ u ∈ tgt, u.id ≠ "" → extractRecordKey u ≠ extractRecordKey s → u.id ≠ u'.id := by
      intro u' hlf' u hu hune hukey
      rw [hlf₂] at hlf'
      have he := Option.some.inj hlf'
      intro hidu
      apply hfresh (extractRecordKey s) u hu
      rw [← he] at hidu
      exact hidu.symm
    have hst3 : lastFind (applyOps env newId tgt
        (syncList env sv tv z t (buildTargetLookup tgt) (pre ++ s :: post)).2.1)
          (extractRecordKey s) =
        some (createdRec newId tv (extractRecordKey s) (recordAddress s)
          (getSyncMarker sv t s.created_at)) := by
      rw [hsplit]
      rw [lastFind_applyOps_others env newId sv tv z t tgt post _ (extractRecordKey s)
        hkpost hsafe₂]
      exact hlf₂
    have hfind' : assocFind (buildTargetLookup (applyOps env newId tgt
        (syncList env sv tv z t (buildTargetLookup tgt) (pre ++ s :: post)).2.1))
          (extractRecordKey s) =
        some (createdRec newId tv (extractRecordKey s) (recordAddress s)
          (getSyncMarker sv t s.created_at)) := by
      rw [assocFind_buildTargetLookup]
      exact hst3
    rw [processRecord_inSync env sv z t2 h1 hfind'
      (recordAddress_createdRec newId tv (extractRecordKey s) (recordAddress s)
        (getSyncMarker sv t s.created_at)).symm]
    exact ⟨rfl, rfl⟩
  · -- target found in pass 1
    have hlftgt : lastFind tgt (extractRecordKey s) = some u := by
      rw [← assocFind_buildTargetLookup]
      exact h2
    have hnoop : (processRecord env sv tv z t (buildTargetLookup tgt) s).2.1 = [] →
        lastFind (applyOps env newId tgt
          (syncList env sv tv z t (buildTargetLookup tgt) (pre ++ s :: post)).2.1)
          (extractRecordKey s) = some u := by
      intro hempty
      rw [hsplit, hempty]
      have hmid : applyOps env newId
          (applyOps env newId tgt (syncList env sv tv z t (buildTargetLookup tgt) pre).2.1)
          ([] : List Op) =
          applyOps env newId tgt (syncList env sv tv z t (buildTargetLookup tgt) pre).2.1 := rfl
      rw [hmid]
      rw [lastFind_applyOps_others env newId sv tv z t tgt post _ (extractRecordKey s)
        hkpost hsafe₁]
      rw [hst1]
      exact hlftgt
    by_cases h3 : recordAddress s = recordAddress u
    · -- already in sync in pass 1: unchanged, still in sync in pass 2
      have hempty : (processRecord env sv tv z t (buildTargetLookup tgt) s).2.1 = [] := by
        rw [processRecord_inSync env sv z t h1 h2 h3]
      have hfind' : assocFind (buildTargetLookup (applyOps env newId tgt
          (syncList env sv tv z t (buildTargetLookup tgt) (pre ++ s :: post)).2.1))
            (extractRecordKey s) = some u := by
        rw [assocFind_buildTargetLookup]
        exact hnoop hempty
      rw [processRecord_inSync env sv z t2 h1 hfind' h3]
      exact ⟨rfl, rfl⟩
    · rcases Bool.eq_false_or_eq_true (isSyncedFromView u.comment sv) with h4 | h4
      · by_cases h6 : u.id = ""
        · -- update blocked by missing id in both passes
          have hempty : (processRecord env sv tv z t (buildTargetLookup tgt) s).2.1 = [] := by
            rw [processRecord_updateNoId env z t h1 h2 h3 h4 h6]
          have hfind' : assocFind (buildTargetLookup (applyOps env newId tgt
              (syncList env sv tv z t (buildTargetLookup tgt) (pre ++ s :: post)).2.1))
                (extractRecordKey s) = some u := by
            rw [assocFind_buildTargetLookup]
            exact hnoop hempty
          rw [processRecord_updateNoId env z t2 h1 hfind' h3 h4 h6]
          exact ⟨rfl, rfl⟩
        · -- successful update in pass 1, in sync in pass 2
          have henvu := henv (Op.update tv u.id (recordAddress s)
            (getSyncMarker sv t s.created_at))
          have hopsS : (processRecord env sv tv z t (buildTargetLookup tgt) s).2.1 =
              [Op.update tv u.id (recordAddress s) (getSyncMarker sv t s.created_at)] := by
            rw [processRecord_update env z t h1 h2 h3 h4 h6, if_pos henvu]
          have hl₂ : applyOps env newId
              (applyOps env newId tgt (syncList env sv tv z t (buildTargetLookup tgt) pre).2.1)
              (processRecord env sv tv z t (buildTargetLookup tgt) s).2.1 =
              (applyOps env newId tgt
                (syncList env sv tv z t (buildTargetLookup tgt) pre).2.1).map
                (fun r => if r.id = u.id then
                  { r with
                    rdata := RdataField.fields (some (recordAddress s)),
                    comment := getSyncMarker sv t s.created_at }
                  else r) := by
            rw [hopsS]
            show applyOp env newId _ _ = _
            rw [applyOp_update_eq, if_pos henvu]
          have hlf₂ : lastFind (applyOps env newId
              (applyOps env newId tgt (syncList env sv tv z t (buildTargetLookup tgt) pre).2.1)
              (processRecord env sv tv z t (buildTargetLookup tgt) s).2.1) (extractRecordKey s) =
              some { u with
                     rdata := RdataField.fields (some (recordAddress s)),
                     comment := getSyncMarker sv t s.created_at } := by
            rw [hl₂]
            rw [lastFind_map _ (fun r => by
              by_cases hr : r.id = u.id <;> simp [hr, extractRecordKey])]
            rw [hst1, hlftgt]
            simp
          have hsafe₂ : ∀ u', lastFind (applyOps env newId
              (applyOps env newId tgt (syncList env sv tv z t (buildTargetLookup tgt) pre).2.1)
              (processRecord env sv tv z t (buildTargetLookup tgt) s).2.1) (extractRecordKey s) =
                some u' →
              ∀ w ∈ tgt, w.id ≠ "" → extractRecordKey w ≠ extractRecordKey s → w.id ≠ u'.id := by
            intro u' hlf' w hw hwne hwkey
            rw [hlf₂] at hlf'
            have he := Option.some.inj hlf'
            have hid' : u'.id = u.id := by rw [← he]
            rw [hid']
            have hu := lastFind_mem hlftgt
            intro hidw
            have heqr := hids w hw u hu.1 hidw hwne
            rw [heqr] at hwkey
            exact hwkey hu.2
          have hst3 : lastFind (applyOps env newId tgt
              (syncList env sv tv z t (buildTargetLookup tgt) (pre ++ s :: post)).2.1)
                (extractRecordKey s) =
              some { u with
                     rdata := RdataField.fields (some (recordAddress s)),
                     comment := getSyncMarker sv t s.created_at } := by
            rw [hsplit]
            rw [lastFind_applyOps_others env newId sv tv z t tgt post _ (extractRecordKey s)
              hkpost hsafe₂]
            exact hlf₂
          have hfind' : assocFind (buildTargetLookup (applyOps env newId tgt
              (syncList env sv tv z t (buildTargetLookup tgt) (pre ++ s :: post)).2.1))
                (extractRecordKey s) =
              some { u with
                     rdata := RdataField.fields (some (recordAddress s)),
                     comment := getSyncMarker sv t s.created_at } := by
            rw [assocFind_buildTargetLookup]
            exact hst3
          have haddr : recordAddress s = recordAddress
              { u with
                rdata := RdataField.fields (some (recordAddress s)),
                comment := getSyncMarker sv t s.created_at } := rfl
          rw [processRecord_inSync env sv z t2 h1 hfind' haddr]
          exact ⟨rfl, rfl⟩
      · -- conflict in pass 1: unchanged, conflict again in pass 2
        have hempty : (processRecord env sv tv z t (buildTargetLookup tgt) s).2.1 = [] := by
          rw [processRecord_conflict env z t h1 h2 h3 h4]
        have hfind' : assocFind (buildTargetLookup (applyOps env newId tgt
            (syncList env sv tv z t (buildTargetLookup tgt) (pre ++ s :: post)).2.1))
              (extractRecordKey s) = some u := by
          rw [assocFind_buildTargetLookup]
          exact hnoop hempty
        rw [processRecord_conflict env z t2 h1 hfind' h3 h4]
        exact ⟨rfl, rfl⟩

/-- C3: running a directional pass a second time immediately after a
first pass — the source set unchanged, the target set reflecting the
first pass's successful creates and updates, under unique source keys,
server-unique record ids, fresh server-assigned ids for created
records, and succeeding remote calls — produces zero synced records and
attempts no remote call at all: every source record is skipped by the
loop guard, equal in address to its target counterpart, blocked by a
missing record id, or a conflict left untouched again. -/
theorem c3_second_pass_is_noop (env : Op → Bool) (newId : String → String)
    (source_view target_view zone sync_time sync_time2 : String)
    (source_records target_records : List Rec)
    (hnodup : (source_records.map extractRecordKey).Nodup)
    (hids : ∀ r ∈ target_records, ∀ r' ∈ target_records,
        r.id = r'.id → r.id ≠ "" → r = r')
    (hfresh : ∀ a, ∀ r ∈ target_records, newId a ≠ r.id)
    (henv : ∀ op, env op = true) :
    (syncOneWayFull env source_view target_view zone sync_time2 source_records
      (applyOps env newId target_records
        (syncOneWayFull env source_view target_view zone sync_time
          source_records target_records).2.1)).1 = 0 ∧
    (syncOneWayFull env source_view target_view zone sync_time2 source_records
      (applyOps env newId target_records
        (syncOneWayFull env source_view target_view zone sync_time
          source_records target_records).2.1)).2.1 = [] := by
  apply syncList_zero
  intro s hs
  rcases List.append_of_mem hs with ⟨pre, post, heq⟩
  subst heq
  rw [List.map_append, List.map_cons] at hnodup
  have hdisj := List.disjoint_of_nodup_append hnodup
  have hpost := List.Nodup.of_append_right hnodup
  have hkpre : ∀ s' ∈ pre, extractRecordKey s' ≠ extractRecordKey s := by
    intro s' hs' he
    exact hdisj (List.mem_map_of_mem extractRecordKey hs')
      (by rw [he]; exact List.mem_cons_self (extractRecordKey s) (post.map extractRecordKey))
  have hkpost : ∀ s' ∈ post, extractRecordKey s' ≠ extractRecordKey s := by
    intro s' hs' he
    exact (List.nodup_cons.mp hpost).1 (by rw [← he]; exact List.mem_map_of_mem extractRecordKey hs')
  exact pass2_record_noop_split env newId source_view target_view zone sync_time sync_time2
    pre post target_records s hkpre hkpost hids hfresh henv

/-- C3 witness: a concrete first pass (one create, one conflict) whose
second run counts zero and attempts no remote call. -/
theorem c3_second_pass_is_noop_witness :
    (([⟨"s1", "newhost", RdataField.fields (some "10.0.0.5"), "", "", "A"⟩,
       ⟨"s2", "host1", RdataField.fields (some "10.0.0.1"), "", "", "A"⟩] : List Rec).map
        extractRecordKey).Nodup ∧
    (syncOneWayFull (fun _ => true) "A" "B" "zone.example.com." "2024-05-02 11:00:00 UTC"
      [⟨"s1", "newhost", RdataField.fields (some "10.0.0.5"), "", "", "A"⟩,
       ⟨"s2", "host1", RdataField.fields (some "10.0.0.1"), "", "", "A"⟩]
      (applyOps (fun _ => true) (fun _ => "")
        [⟨"t1", "host1", RdataField.fields (some "10.0.0.2"), "", "", "B"⟩]
        (syncOneWayFull (fun _ => true) "A" "B" "zone.example.com." "2024-05-02 10:00:00 UTC"
          [⟨"s1", "newhost", RdataField.fields (some "10.0.0.5"), "", "", "A"⟩,
           ⟨"s2", "host1", RdataField.fields (some "10.0.0.1"), "", "", "A"⟩]
          [⟨"t1", "host1", RdataField.fields (some "10.0.0.2"), "", "", "B"⟩]).2.1)).1 = 0 ∧
    (syncOneWayFull (fun _ => true) "A" "B" "zone.example.com." "2024-05-02 11:00:00 UTC"
      [⟨"s1", "newhost", RdataField.fields (some "10.0.0.5"), "", "", "A"⟩,
       ⟨"s2", "host1", RdataField.fields (some "10.0.0.1"), "", "", "A"⟩]
      (applyOps (fun _ => true) (fun _ => "")
        [⟨"t1", "host1", RdataField.fields (some "10.0.0.2"), "", "", "B"⟩]
        (syncOneWayFull (fun _ => true) "A" "B" "zone.example.com." "2024-05-02 10:00:00 UTC"
          [⟨"s1", "newhost", RdataField.fields (some "10.0.0.5"), "", "", "A"⟩,
           ⟨"s2", "host1", RdataField.fields (some "10.0.0.1"), "", "", "A"⟩]
          [⟨"t1", "host1", RdataField.fields (some "10.0.0.2"), "", "", "B"⟩]).2.1)).2.1 = [] := by
  have h := c3_second_pass_is_noop (fun _ => true) (fun _ => "") "A" "B" "zone.example.com."
    "2024-05-02 10:00:00 UTC" "2024-05-02 11:00:00 UTC"
    [⟨"s1", "newhost", RdataField.fields (some "10.0.0.5"), "", "", "A"⟩,
     ⟨"s2", "host1", RdataField.fields (some "10.0.0.1"), "", "", "A"⟩]
    [⟨"t1", "host1", RdataField.fields (some "10.0.0.2"), "", "", "B"⟩]
    (by decide) (by decide)
    (by
      intro a r hr
      rw [List.mem_singleton] at hr
      subst hr
      show ("" : String) ≠ "t1"
      decide)
    (fun _ => rfl)
  exact ⟨by decide, h.1, h.2⟩
